import Mathlib

/-
Shallow embedding of the screenshot_backend authentication core and the
screenshot endpoints, translated from:
  src/app/auth/crypto.py
  src/app/auth/auth_handler.py
  src/app/model.py
  src/app/api.py
Machine randomness (os.urandom) is modelled as an explicit byte stream
argument; wall-clock time (datetime.now) as an explicit integer argument
in epoch seconds; the process-wide JWT secret and algorithm as explicit
string arguments.  Library collaborators (PyJWT, passlib CryptContext,
fastapi OAuth2PasswordBearer) are embedded by their documented semantics,
since the source delegates to them directly.
-/

deriving instance DecidableEq for Except

namespace ScreenshotBackend

/-! ## crypto.py -/

/-- Stand-in for the bcrypt key derivation used by passlib.  The only
property the source relies on is that it is a deterministic function of
the salt and the password, recomputed at verification time with the salt
stored in the hash; any executable function of both arguments models
that. -/
def bcryptKdf (salt : Nat) (password : String) : List Nat :=
  (password.toList.map Char.toNat) ++ [salt % 256]

/-- A stored password-hash string: either a well-formed bcrypt hash
(carrying its salt and the digest bcrypt computed from salt and
password), or a string that passlib cannot parse as a bcrypt hash. -/
inductive Hash where
  | bcrypt (salt : Nat) (digest : List Nat)
  | malformed (raw : String)
  deriving Repr, DecidableEq

/-- The exception passlib raises when the stored hash cannot be
identified as any configured scheme (UnknownHashError, a ValueError). -/
inductive PasslibError where
  | unknownHash
  deriving Repr, DecidableEq

/-- crypto.verify_password: delegates to pwd_context.verify.  passlib
identifies the hash; a well-formed bcrypt hash is checked by recomputing
the digest with the stored salt and comparing; an unidentifiable hash
makes pwd_context.verify raise UnknownHashError, which verify_password
does not catch (modelled as `Except.error`). -/
def verify_password (plain_password : String) (hashed_password : Hash) :
    Except PasslibError Bool :=
  match hashed_password with
  | .bcrypt salt digest => .ok (bcryptKdf salt plain_password == digest)
  | .malformed _ => .error .unknownHash

/-- crypto.get_password_hash: pwd_context.hash draws a fresh random salt
(modelled as the explicit `salt` argument) and stores it with the
digest. -/
def get_password_hash (password : String) (salt : Nat) : Hash :=
  .bcrypt salt (bcryptKdf salt password)

/-- The URL-safe base64 alphabet of RFC 4648 (base64.urlsafe_b64encode). -/
def b64UrlChar (n : Nat) : Char :=
  "ABCDEFGHIJKLMNOPQRSTUVWXYZabcdefghijklmnopqrstuvwxyz0123456789-_".toList.getD n 'A'

/-- base64.urlsafe_b64encode on a byte list: three bytes become four
alphabet characters, a final group of one or two bytes is padded with
the pad character. -/
def base64UrlEncode : List Nat → List Char
  | [] => []
  | [b0] => [b64UrlChar (b0 / 4), b64UrlChar (b0 % 4 * 16), '=', '=']
  | [b0, b1] =>
      [b64UrlChar (b0 / 4), b64UrlChar (b0 % 4 * 16 + b1 / 16),
       b64UrlChar (b1 % 16 * 4), '=']
  | b0 :: b1 :: b2 :: rest =>
      b64UrlChar (b0 / 4) :: b64UrlChar (b0 % 4 * 16 + b1 / 16) ::
      b64UrlChar (b1 % 16 * 4 + b2 / 64) :: b64UrlChar (b2 % 64) ::
      base64UrlEncode rest

/-- str.rstrip applied with the newline character. -/
def rstripNewline (s : String) : String :=
  String.mk ((s.toList.reverse.dropWhile (fun c => c == '\n')).reverse)

/-- os.urandom(length): `length` bytes drawn from the process entropy
source, modelled as an explicit byte stream `rng`. -/
def urandom (length : Nat) (rng : Nat → Nat) : List Nat :=
  (List.range length).map (fun i => rng i % 256)

/-- crypto.generate_random_base64_string: URL-safe base64 encoding of
`length` random bytes, with any trailing newline stripped. -/
def generate_random_base64_string (length : Nat) (rng : Nat → Nat) : String :=
  rstripNewline (String.mk (base64UrlEncode (urandom length rng)))

/-! ## model.py -/

/-- model.UserLogin: the credentials presented at login. -/
structure UserLogin where
  email : String
  password : String
  deriving Repr, DecidableEq

/-- model.UserId: the authenticated identity reconstructed from a token. -/
structure UserId where
  id : Int
  email : String
  deriving Repr, DecidableEq

/-- model.User: a persisted credential record (password holds the hash
after signup). -/
structure User where
  id : Int
  email : String
  password : Hash
  fullname : Option String
  deriving Repr, DecidableEq

/-- model.ScreenshotCreate: the client-supplied request body for
creating a screenshot; it has exactly the fields url and img. -/
structure ScreenshotCreate where
  url : String
  img : String
  deriving Repr, DecidableEq

/-- model.Screenshot: a persisted screenshot row. -/
structure Screenshot where
  id : Option Int
  url : String
  img : String
  owner_id : Option Int
  external_id : Option String
  created_on : Int
  deriving Repr, DecidableEq

/-! ## auth_handler.py -/

/-- The claim set embedded in a token: sub carries the identity, exp the
absolute expiry in epoch seconds. -/
structure Payload where
  sub : UserId
  exp : Int
  deriving Repr, DecidableEq

/-- A bearer-token string: either a well-formed JWT (its payload, the
secret it was signed with, and the header algorithm), or a string that
is not a JWT at all. -/
inductive Token where
  | signed (payload : Payload) (secret : String) (alg : String)
  | malformed (raw : String)
  deriving Repr, DecidableEq

/-- The PyJWT exception hierarchy rooted at InvalidTokenError: decode
failures (malformed, bad signature, expired) all derive from it and are
all caught by the single except clause in decode_jwt. -/
inductive JwtError where
  | invalidToken
  deriving Repr, DecidableEq

/-- jwt.encode: signs the payload with the secret under the given
algorithm. -/
def jwtEncode (payload : Payload) (secret : String) (alg : String) : Token :=
  .signed payload secret alg

/-- jwt.decode: raises InvalidTokenError on a string that is not a JWT,
on a signature that does not verify against the key (wrong secret or an
algorithm outside the allowed list), and on an exp claim at or before
the current time (PyJWT expires when exp is less than or equal to now,
with zero leeway); otherwise returns the payload. -/
def jwtDecode (token : Token) (key : String) (algorithms : List String)
    (now : Int) : Except JwtError Payload :=
  match token with
  | .malformed _ => .error .invalidToken
  | .signed p s a =>
      if s = key ∧ a ∈ algorithms then
        if p.exp ≤ now then .error .invalidToken else .ok p
      else .error .invalidToken

/-- Python truthiness of an Optional[timedelta] (seconds): None and the
zero duration are falsy, every other duration is truthy. -/
def tdTruthy : Option Int → Bool
  | none => false
  | some d => d != 0

/-- auth_handler.check_and_get_user: looks up the first user whose email
matches, verifies the presented password against the stored hash, and
returns the user only on success; both a lookup miss and a failed
verification return None. -/
def check_and_get_user (data : UserLogin) (db : List User) :
    Except PasslibError (Option User) :=
  match db.find? (fun u => u.email == data.email) with
  | some user =>
      match verify_password data.password user.password with
      | .ok true => .ok (some user)
      | .ok false => .ok none
      | .error e => .error e
  | none => .ok none

/-- auth_handler.create_access_token: payload sub is the dict of id and
email; exp is now plus expires_delta when expires_delta is truthy,
otherwise now plus 30 minutes; the result is signed with the
process-wide secret and algorithm. -/
def create_access_token (user : User) (expires_delta : Option Int)
    (now : Int) (secret : String) (alg : String) : Token :=
  let expire : Int :=
    if tdTruthy expires_delta then now + expires_delta.getD 0
    else now + 30 * 60
  jwtEncode { sub := { id := user.id, email := user.email }, exp := expire }
    secret alg

/-- auth_handler.decode_jwt: calls jwt.decode with the process secret
and the one-element algorithm list, returning the payload, and catches
jwt.InvalidTokenError, returning None. -/
def decode_jwt (token : Token) (secret : String) (alg : String)
    (now : Int) : Option Payload :=
  match jwtDecode token secret [alg] now with
  | .ok p => some p
  | .error _ => none

/-- An HTTPException as raised by the gate: status code, detail message,
and the optional WWW-Authenticate response header. -/
structure HTTPError where
  status : Nat
  detail : String
  wwwAuthenticate : Option String
  deriving Repr, DecidableEq

/-- The credentials_exception built inside get_current_user_id. -/
def credentials_exception : HTTPError :=
  { status := 401, detail := "Could not validate credentials",
    wwwAuthenticate := some "Bearer" }

/-- The HTTPException raised by fastapi OAuth2PasswordBearer (auto_error
defaults to True) when the Authorization header is absent or its scheme
is not bearer. -/
def notAuthenticatedError : HTTPError :=
  { status := 401, detail := "Not authenticated",
    wwwAuthenticate := some "Bearer" }

/-- An Authorization header split into its scheme and credentials parts,
as fastapi get_authorization_scheme_param does. -/
structure AuthHeader where
  scheme : String
  credentials : Token
  deriving Repr, DecidableEq

/-- An inbound HTTP request, reduced to the one part the authentication
code reads: the optional Authorization header. -/
structure Request where
  authorization : Option AuthHeader
  deriving Repr, DecidableEq

/-- str.lower on the header scheme, character by character. -/
def strToLower (s : String) : String :=
  String.mk (s.toList.map Char.toLower)

/-- oauth2_scheme = OAuth2PasswordBearer(tokenUrl="token"): extracts the
bearer credentials from the Authorization header; a missing header or a
scheme other than bearer (case-insensitive) raises 401 Not
authenticated. -/
def oauth2_scheme (req : Request) : Except HTTPError Token :=
  match req.authorization with
  | none => .error notAuthenticatedError
  | some h =>
      if strToLower h.scheme == "bearer" then .ok h.credentials
      else .error notAuthenticatedError

/-- auth_handler.get_current_user_id: decodes the extracted token and
raises credentials_exception when decode_jwt returns a falsy value,
otherwise rebuilds model.UserId from the sub claim. -/
def get_current_user_id (token : Token) (secret : String) (alg : String)
    (now : Int) : Except HTTPError UserId :=
  match decode_jwt token secret alg now with
  | none => .error credentials_exception
  | some payload => .ok payload.sub

/-- The full authentication dependency chain on a protected request:
fastapi first runs oauth2_scheme on the request, then passes the
extracted token to get_current_user_id. -/
def authentication_gate (req : Request) (secret : String) (alg : String)
    (now : Int) : Except HTTPError UserId :=
  match oauth2_scheme req with
  | .error e => .error e
  | .ok token => get_current_user_id token secret alg now

/-! ## api.py -/

/-- The 404 HTTPException raised by get_single_screenshot. -/
def screenshotNotFound : HTTPError :=
  { status := 404, detail := "Screenshot not found", wwwAuthenticate := none }

/-- api.get_single_screenshot: selects the first screenshot whose
external_id equals the path parameter; raises 404 when there is none,
returns the row otherwise.  Its parameters are the session and the path
parameter only. -/
def get_single_screenshot (db : List Screenshot) (screenshot_id : String) :
    Except HTTPError Screenshot :=
  match db.find? (fun s => s.external_id == some screenshot_id) with
  | none => .error screenshotNotFound
  | some s => .ok s

/-- The route dispatch for GET /screenshots/(screenshot_id): the handler
declares no dependency on get_current_user_id, so fastapi never consults
the Authorization header of the request when serving it. -/
def handle_get_single_screenshot (_req : Request) (db : List Screenshot)
    (screenshot_id : String) : Except HTTPError Screenshot :=
  get_single_screenshot db screenshot_id

/-- api.add_screenshots: Screenshot.model_validate copies url and img
from the ScreenshotCreate body and applies the update dict setting
owner_id to the authenticated id and created_on to now; external_id is
then overwritten with 32 fresh random bytes base64-encoded; session
add/commit/refresh appends the row and assigns the autoincrement
primary key.  Returns the refreshed row and the new table state. -/
def add_screenshots (current_user_id : UserId) (screenshot : ScreenshotCreate)
    (now : Int) (rng : Nat → Nat) (db : List Screenshot) :
    Screenshot × List Screenshot :=
  let screenshot_db : Screenshot :=
    { id := some ((db.length : Int) + 1),
      url := screenshot.url,
      img := screenshot.img,
      owner_id := some current_user_id.id,
      external_id := some (generate_random_base64_string 32 rng),
      created_on := now }
  (screenshot_db, db ++ [screenshot_db])

/-! ## Concrete fixtures used by witnesses and counterexamples -/

/-- A concrete credential record. -/
def u0 : User :=
  { id := 7, email := "a@b.com", password := Hash.malformed "x",
    fullname := none }

/-- A concrete payload with a far-future expiry. -/
def p0 : Payload := { sub := { id := 1, email := "e" }, exp := 99 }

/-- A concrete payload whose expiry has already passed at time 5. -/
def q0 : Payload := { sub := { id := 1, email := "e" }, exp := 0 }

/-- A concrete credential record whose stored hash is the hash of the
password "right" under salt 3. -/
def user_a : User :=
  { id := 1, email := "a@b.com", password := get_password_hash "right" 3,
    fullname := some "A" }

/-- A concrete persisted screenshot row. -/
def shot0 : Screenshot :=
  { id := some 1, url := "http://u", img := "i", owner_id := some 9,
    external_id := some "ext", created_on := 0 }

/-! ## Theorems -/

/-- C4 Password round-trip: for every plaintext password and every salt
the hasher draws, verify_password accepts the password against
get_password_hash of that password. -/
theorem password_roundtrip (password : String) (salt : Nat) :
    verify_password password (get_password_hash password salt) = .ok true := by
  simp [verify_password, get_password_hash]

/-- C5 counterexample: on a stored hash that is not a valid bcrypt hash,
verify_password propagates the passlib UnknownHashError to its caller
instead of returning false. -/
theorem verify_password_raises_on_malformed :
    verify_password "password" (Hash.malformed "not-a-bcrypt-hash")
        = .error PasslibError.unknownHash
    ∧ verify_password "password" (Hash.malformed "not-a-bcrypt-hash")
        ≠ .ok false := by
  refine ⟨rfl, ?_⟩
  intro h
  simp [verify_password] at h

/-- C5 (amended): verify_password returns a boolean, never raising, on
every well-formed bcrypt stored hash; but on a stored hash that is not a
valid bcrypt hash it raises UnknownHashError to its caller rather than
returning false. -/
theorem verify_password_behavior (plain : String) (salt : Nat)
    (digest : List Nat) (raw : String) :
    verify_password plain (Hash.bcrypt salt digest)
        = .ok (bcryptKdf salt plain == digest)
    ∧ verify_password plain (Hash.malformed raw)
        = .error PasslibError.unknownHash :=
  ⟨rfl, rfl⟩

/-- C9 Ownership invariant on creation: the record persisted by
add_screenshots has owner_id equal to the authenticated id, external_id
generated server-side from 32 random bytes, created_on set server-side,
and takes only url and img from the client body; the new table state is
the old one with exactly that record appended. -/
theorem add_screenshots_ownership (current_user_id : UserId)
    (screenshot : ScreenshotCreate) (now : Int) (rng : Nat → Nat)
    (db : List Screenshot) :
    (add_screenshots current_user_id screenshot now rng db).1.owner_id
        = some current_user_id.id
    ∧ (add_screenshots current_user_id screenshot now rng db).1.external_id
        = some (generate_random_base64_string 32 rng)
    ∧ (urandom 32 rng).length = 32
    ∧ (add_screenshots current_user_id screenshot now rng db).1.url
        = screenshot.url
    ∧ (add_screenshots current_user_id screenshot now rng db).1.img
        = screenshot.img
    ∧ (add_screenshots current_user_id screenshot now rng db).1.created_on
        = now
    ∧ (add_screenshots current_user_id screenshot now rng db).2
        = db ++ [(add_screenshots current_user_id screenshot now rng db).1] := by
  refine ⟨rfl, rfl, ?_, rfl, rfl, rfl, rfl⟩
  simp [urandom]

/-- C10 A zero expires_delta is falsy, so create_access_token falls back
to the 30-minute default expiry exactly as when no expires_delta is
passed. -/
theorem zero_delta_gets_default_expiry (user : User) (now : Int)
    (secret alg : String) :
    create_access_token user (some 0) now secret alg
        = create_access_token user none now secret alg
    ∧ create_access_token user (some 0) now secret alg
        = Token.signed ⟨⟨user.id, user.email⟩, now + 30 * 60⟩ secret alg := by
  constructor <;> simp [create_access_token, tdTruthy, jwtEncode]

/-- C1 Token round-trip: for every identity and every positive ttl,
decoding the token produced by create_access_token with the same secret
and algorithm before the ttl elapses succeeds with a sub claim that is
exactly the id and email of the identity, and get_current_user_id
resolves the token to that identity. -/
theorem token_roundtrip (user : User) (ttl now now2 : Int)
    (secret alg : String) (h1 : 0 < ttl) (h2 : now2 < now + ttl) :
    decode_jwt (create_access_token user (some ttl) now secret alg)
        secret alg now2
      = some ⟨⟨user.id, user.email⟩, now + ttl⟩
    ∧ get_current_user_id (create_access_token user (some ttl) now secret alg)
        secret alg now2
      = .ok ⟨user.id, user.email⟩ := by
  have hne : ttl ≠ 0 := by omega
  have hexp : ¬ (now + ttl ≤ now2) := by omega
  constructor <;>
    simp [decode_jwt, create_access_token, jwtEncode, jwtDecode, tdTruthy,
      get_current_user_id, hne, hexp]

/-- C1 witness: the round-trip evaluated at a concrete user, a ttl of
60 seconds and issuance time 0, decoded at time 0. -/
theorem token_roundtrip_witness :
    (0 : Int) < 60 ∧ (0 : Int) < 0 + 60 ∧
    (decode_jwt (create_access_token u0 (some 60) 0 "s" "HS256") "s" "HS256" 0
        = some ⟨⟨7, "a@b.com"⟩, 0 + 60⟩
      ∧ get_current_user_id (create_access_token u0 (some 60) 0 "s" "HS256")
          "s" "HS256" 0
        = .ok ⟨7, "a@b.com"⟩) :=
  ⟨by decide, by decide,
    token_roundtrip u0 60 0 0 "s" "HS256" (by decide) (by decide)⟩

/-- C2 decode_jwt is a total function into an optional payload, never
raising: a malformed token yields None; a signed token yields its
payload exactly when it was signed with the configured secret and
algorithm and its expiry is still in the future, and None otherwise (in
particular under a wrong secret or a passed expiry); a token issued with
expires_delta of minus one second yields None immediately. -/
theorem decode_jwt_total (secret alg : String) (now : Int) :
    (∀ raw, decode_jwt (Token.malformed raw) secret alg now = none)
    ∧ (∀ p s a, decode_jwt (Token.signed p s a) secret alg now
        = if s = secret ∧ a = alg ∧ now < p.exp then some p else none)
    ∧ (∀ user : User,
        decode_jwt (create_access_token user (some (-1)) now secret alg)
          secret alg now = none) := by
  refine ⟨fun raw => rfl, fun p s a => ?_, fun user => ?_⟩
  · by_cases hs : s = secret
    · by_cases ha : a = alg
      · subst hs; subst ha
        by_cases he : now < p.exp
        · have : ¬ (p.exp ≤ now) := by omega
          simp [decode_jwt, jwtDecode, he, this]
        · have : p.exp ≤ now := by omega
          simp [decode_jwt, jwtDecode, he, this]
      · simp [decode_jwt, jwtDecode, ha]
    · simp [decode_jwt, jwtDecode, hs]
  · have hle : now + (-1) ≤ now := by omega
    simp [decode_jwt, create_access_token, jwtEncode, jwtDecode, tdTruthy, hle]

/-- C6 Every token produced by create_access_token carries an exp claim:
with no expires_delta the expiry is issuance time plus 30 minutes, and
with a non-zero expires_delta it is issuance time plus that delta. -/
theorem access_token_expiry (user : User) (now : Int) (secret alg : String) :
    create_access_token user none now secret alg
        = Token.signed ⟨⟨user.id, user.email⟩, now + 30 * 60⟩ secret alg
    ∧ ∀ d : Int, d ≠ 0 →
        create_access_token user (some d) now secret alg
          = Token.signed ⟨⟨user.id, user.email⟩, now + d⟩ secret alg := by
  constructor
  · simp [create_access_token, jwtEncode, tdTruthy]
  · intro d hd
    simp [create_access_token, jwtEncode, tdTruthy, hd]

/-- C6 witness: the expiry equations evaluated at a concrete user, a
delta of 60 seconds and issuance time 0. -/
theorem access_token_expiry_witness :
    ((60 : Int) ≠ 0)
    ∧ create_access_token u0 (some 60) 0 "s" "HS256"
        = Token.signed ⟨⟨7, "a@b.com"⟩, 0 + 60⟩ "s" "HS256" :=
  ⟨by decide, (access_token_expiry u0 0 "s" "HS256").2 60 (by decide)⟩

/-- C3 counterexample: a request with no Authorization header is
rejected with the OAuth2PasswordBearer error, a request with a malformed
bearer token is rejected with credentials_exception, and the two detail
messages differ, so the four failure cases do not share one identical
message. -/
theorem gate_error_messages_differ :
    authentication_gate { authorization := none } "s" "HS256" 0
        = .error notAuthenticatedError
    ∧ authentication_gate
        { authorization := some ⟨"Bearer", Token.malformed "garbage"⟩ }
        "s" "HS256" 0
        = .error credentials_exception
    ∧ notAuthenticatedError.detail ≠ credentials_exception.detail :=
  ⟨rfl, by decide, by decide⟩

/-- C3 (amended): all four failure cases of a protected request are
rejected with status 401 and the bearer WWW-Authenticate header; the
three invalid-token cases (malformed token, bad signature or wrong
algorithm, expired token) share one identical error,
credentials_exception, but the missing-token case is rejected by the
extraction layer with a different detail message, Not authenticated, so
the message does reveal missing-token versus invalid-token. -/
theorem gate_uniform (secret alg : String) (now : Int) (raw : String)
    (p q : Payload) (s a : String)
    (hsig : ¬ (s = secret ∧ a = alg)) (hexp : q.exp ≤ now) :
    authentication_gate { authorization := none } secret alg now
        = .error notAuthenticatedError
    ∧ authentication_gate
        { authorization := some ⟨"Bearer", Token.malformed raw⟩ }
        secret alg now
        = .error credentials_exception
    ∧ authentication_gate
        { authorization := some ⟨"Bearer", Token.signed p s a⟩ }
        secret alg now
        = .error credentials_exception
    ∧ authentication_gate
        { authorization := some ⟨"Bearer", Token.signed q secret alg⟩ }
        secret alg now
        = .error credentials_exception
    ∧ notAuthenticatedError.status = credentials_exception.status
    ∧ notAuthenticatedError.wwwAuthenticate
        = credentials_exception.wwwAuthenticate
    ∧ notAuthenticatedError.detail ≠ credentials_exception.detail := by
  have hb : (strToLower "Bearer" == "bearer") = true := by decide
  refine ⟨rfl, ?_, ?_, ?_, rfl, rfl, by decide⟩
  · simp [authentication_gate, oauth2_scheme, hb, get_current_user_id,
      decode_jwt, jwtDecode]
  · simp [authentication_gate, oauth2_scheme, hb, get_current_user_id,
      decode_jwt, jwtDecode, hsig]
  · simp [authentication_gate, oauth2_scheme, hb, get_current_user_id,
      decode_jwt, jwtDecode, hexp]

/-- C3 witness: the amended statement evaluated at concrete secrets,
payloads and time, with a wrong secret and an already-passed expiry. -/
theorem gate_uniform_witness :
    (¬ (("x" : String) = "s" ∧ ("HS256" : String) = "HS256"))
    ∧ q0.exp ≤ (5 : Int)
    ∧ authentication_gate { authorization := none } "s" "HS256" 5
        = .error notAuthenticatedError :=
  ⟨by decide, by decide,
    (gate_uniform "s" "HS256" 5 "garbage" p0 q0 "x" "HS256"
      (by decide) (by decide)).1⟩

/-- C7 Uniform failure of check_and_get_user: a lookup miss on the email
and a failed password verification both return the same value, None;
the user record is returned exactly when the email matches and the
password verifies. -/
theorem check_and_get_user_uniform_failure (data : UserLogin)
    (db : List User) :
    (db.find? (fun u => u.email == data.email) = none →
      check_and_get_user data db = .ok none)
    ∧ (∀ u, db.find? (fun u => u.email == data.email) = some u →
        verify_password data.password u.password = .ok false →
        check_and_get_user data db = .ok none)
    ∧ (∀ u, db.find? (fun u => u.email == data.email) = some u →
        verify_password data.password u.password = .ok true →
        check_and_get_user data db = .ok (some u))
    ∧ (∀ u, check_and_get_user data db = .ok (some u) →
        db.find? (fun v => v.email == data.email) = some u
        ∧ verify_password data.password u.password = .ok true) := by
  refine ⟨?_, ?_, ?_, ?_⟩
  · intro h
    simp [check_and_get_user, h]
  · intro u hf hv
    simp [check_and_get_user, hf, hv]
  · intro u hf hv
    simp [check_and_get_user, hf, hv]
  · intro u h
    cases hf : db.find? (fun v => v.email == data.email) with
    | none => simp [check_and_get_user, hf] at h
    | some v =>
        cases hv : verify_password data.password v.password with
        | error e => simp [check_and_get_user, hf, hv] at h
        | ok b =>
            cases b with
            | false => simp [check_and_get_user, hf, hv] at h
            | true =>
                simp only [check_and_get_user, hf, hv] at h
                have h2 : v = u := by
                  simpa using h
                subst h2
                exact ⟨rfl, hv⟩

/-- C7 witness: with one stored user whose hash is of the password
right, presenting the password wrong returns the same None as a lookup
miss would. -/
theorem check_and_get_user_witness :
    ([user_a].find? (fun u => u.email == "a@b.com") = some user_a)
    ∧ verify_password "wrong" user_a.password = .ok false
    ∧ check_and_get_user ⟨"a@b.com", "wrong"⟩ [user_a] = .ok none :=
  ⟨by decide, by decide,
    (check_and_get_user_uniform_failure ⟨"a@b.com", "wrong"⟩ [user_a]).2.1
      user_a (by decide) (by decide)⟩

/-- C8 The single-screenshot lookup is public: the route consults no
identity, so its outcome is the same for any two requests; the 404
rejection happens exactly when no stored screenshot has the requested
external_id; and when the first match exists, that full record is
returned. -/
theorem get_single_screenshot_public (req1 req2 : Request)
    (db : List Screenshot) (sid : String) :
    handle_get_single_screenshot req1 db sid
        = handle_get_single_screenshot req2 db sid
    ∧ (handle_get_single_screenshot req1 db sid = .error screenshotNotFound
        ↔ ∀ s ∈ db, s.external_id ≠ some sid)
    ∧ (∀ s, db.find? (fun t => t.external_id == some sid) = some s →
        handle_get_single_screenshot req1 db sid = .ok s) := by
  refine ⟨rfl, ?_, ?_⟩
  · rw [show (∀ s ∈ db, s.external_id ≠ some sid)
        ↔ db.find? (fun t => t.external_id == some sid) = none by
      simp [List.find?_eq_none]]
    cases hf : db.find? (fun t => t.external_id == some sid) with
    | none => simp [handle_get_single_screenshot, get_single_screenshot, hf]
    | some s =>
        simp [handle_get_single_screenshot, get_single_screenshot, hf,
          screenshotNotFound]
  · intro s hf
    simp [handle_get_single_screenshot, get_single_screenshot, hf]

/-- C8 witness: with one stored screenshot of external id ext, a request
with no token and a request with a malformed token both receive the full
record. -/
theorem get_single_screenshot_public_witness :
    ([shot0].find? (fun t => t.external_id == some "ext") = some shot0)
    ∧ handle_get_single_screenshot { authorization := none } [shot0] "ext"
        = .ok shot0 :=
  ⟨by decide,
    (get_single_screenshot_public { authorization := none }
      { authorization := some ⟨"Bearer", Token.malformed "g"⟩ }
      [shot0] "ext").2.2 shot0 (by decide)⟩

end ScreenshotBackend
